import Mathlib

/-!
A shallow embedding of the DS18B20 1-Wire temperature-sensor driver
(`ds18b20.cpp` / `ds18b20.h`), together with theorems settling the
specification claims about it.

Machine bytes are modelled as `Nat` with explicit `% 256` where the C code
stores into `uint8_t`; the `float` output slot is modelled as `ℚ` (every
value the code can compute is `n / 16` with `n < 2 ^ 16 < 2 ^ 24`, hence is
exactly representable in single precision, so the rational model is exact).
Transport-level collaborators (bus reset / write / read, the device
iterator, CRC-8, the ESP-IDF error codes and 1-Wire ROM opcodes) live
outside the repository; they are modelled from the spec as an explicit
`Transport` record of result oracles, and each driver operation returns,
next to its result, the trace of transport calls it issued.
The out-of-bounds read `lsb_mask[idx]` for `idx > 3` (undefined behavior
in C) is modelled by `Option`: `none` means the execution ran into it.
-/

set_option maxRecDepth 4000

namespace Ds18b20

/-- Modelled from the spec: ESP-IDF success code (`esp_err.h` is an external
collaborator; the values are the standard ESP-IDF ones). -/
def ESP_OK : Nat := 0

/-- Modelled from the spec: ESP-IDF invalid-argument error code. -/
def ESP_ERR_INVALID_ARG : Nat := 0x102

/-- Modelled from the spec: ESP-IDF not-found error code; the device
iterator signals exhaustion with it, and bus reset uses it for "no
presence pulse". -/
def ESP_ERR_NOT_FOUND : Nat := 0x105

/-- Modelled from the spec: ESP-IDF CRC-mismatch error code. -/
def ESP_ERR_INVALID_CRC : Nat := 0x109

/-- Modelled from the spec: 1-Wire MATCH ROM opcode from the transport
layer's command set (`onewire_cmd.h`), selecting one addressed device. -/
def ONEWIRE_CMD_MATCH_ROM : Nat := 0x55

/-- Modelled from the spec: 1-Wire SKIP ROM opcode from the transport
layer's command set (`onewire_cmd.h`), broadcasting to all devices. -/
def ONEWIRE_CMD_SKIP_ROM : Nat := 0xCC

/-- `#define DS18B20_CMD_CONVERT_TEMP 0x44` -/
def DS18B20_CMD_CONVERT_TEMP : Nat := 0x44

/-- `#define DS18B20_CMD_WRITE_SCRATCHPAD 0x4E` -/
def DS18B20_CMD_WRITE_SCRATCHPAD : Nat := 0x4E

/-- `#define DS18B20_CMD_READ_SCRATCHPAD 0xBE` -/
def DS18B20_CMD_READ_SCRATCHPAD : Nat := 0xBE

/-- `onewire_device_address_t`: an 8-byte ROM code
(`static_assert(sizeof(onewire_device_address_t) == 8)`). -/
abbrev Addr := Fin 8 → Nat

/-- The transport calls a driver operation can issue; each operation
returns the trace of the calls it made, in order. -/
inductive TCall where
  | reset
  | write (bytes : List Nat)
  | read (count : Nat)
  | newIter
  | delIter
deriving DecidableEq

/-- Modelled from the spec: the behavior of the external 1-Wire transport
(`onewire_bus_reset`, `onewire_bus_write_bytes`, `onewire_bus_read_bytes`,
`onewire_new_device_iter`) as result oracles. `readResult n` is the
`esp_err_t` of the read together with the `n` bytes it places in the
caller's buffer. -/
structure Transport where
  resetResult : Nat
  writeResult : List Nat → Nat
  readResult : Nat → Nat × List Nat
  newIterResult : Nat

/-- Modelled from the spec: one bit-iteration of the 1-Wire (Dallas) CRC-8,
polynomial x^8 + x^5 + x^4 + 1 in reflected form 0x8C, as computed by the
external `onewire_crc8`. -/
def crc8_bits : Nat → Nat → Nat
  | 0, crc => crc
  | n + 1, crc => crc8_bits n (if crc % 2 = 1 then (crc / 2) ^^^ 0x8C else crc / 2)

/-- Modelled from the spec: the external `onewire_crc8(seed, data, len)`
over a whole byte list. -/
def onewire_crc8 (seed : Nat) (data : List Nat) : Nat :=
  data.foldl (fun crc b => crc8_bits 8 ((crc ^^^ b % 256) % 256)) (seed % 256)

/-- The command frame each operation builds in `tx_buffer` after the bus
reset: `[MATCH_ROM, rom[0..7], cmd]` (10 bytes) when a ROM address is
supplied, `[SKIP_ROM, cmd]` (2 bytes) when it is `NULL`. This is the
byte-sequence construction duplicated in `trigger_temperature_conversion`,
`get_temperature` and `set_resolution` (lines 101-110, 136-145, 176-185). -/
def buildFrame (rom : Option Addr) (cmd : Nat) : List Nat :=
  match rom with
  | some r => ONEWIRE_CMD_MATCH_ROM :: (List.ofFn r ++ [cmd])
  | none => [ONEWIRE_CMD_SKIP_ROM, cmd]

/-- The 4-entry mask table `static const uint8_t lsb_mask[4]` of
`get_temperature` (line 155). -/
def lsb_mask : List Nat := [0x07, 0x03, 0x01, 0x00]

/-- The scratchpad decode of `get_temperature` (lines 155-157): select the
mask by `configuration >> 5` (no bound on the index: an index above 3 reads
past the 4-entry array, which is undefined behavior, modelled as `none`),
clear the masked low bits of the temperature LSB, combine with the MSB as
an unsigned 16-bit value and divide by 16. `sp` is the 9-byte scratchpad;
field offsets: LSB 0, MSB 1, configuration 4. -/
def decode_temperature (sp : List Nat) : Option ℚ :=
  match lsb_mask[(sp.getD 4 0 % 256) >>> 5]? with
  | none => none
  | some mask =>
    some ((((((sp.getD 1 0 % 256) <<< 8) |||
      ((sp.getD 0 0 % 256) &&& (255 ^^^ mask)) : Nat)) : ℚ) / 16)

/-- `trigger_temperature_conversion(handle, rom_number)` (lines 92-116):
null-handle guard, bus reset, CONVERT_TEMP frame write; every
`ESP_RETURN_ON_ERROR` propagates the transport error code unchanged.
Returns the `esp_err_t` and the trace of transport calls. -/
def trigger_temperature_conversion (handle : Bool) (rom : Option Addr) (t : Transport) :
    Nat × List TCall :=
  if handle = false then (ESP_ERR_INVALID_ARG, [])
  else if t.resetResult ≠ ESP_OK then (t.resetResult, [TCall.reset])
  else if t.writeResult (buildFrame rom DS18B20_CMD_CONVERT_TEMP) ≠ ESP_OK then
    (t.writeResult (buildFrame rom DS18B20_CMD_CONVERT_TEMP),
      [TCall.reset, TCall.write (buildFrame rom DS18B20_CMD_CONVERT_TEMP)])
  else (ESP_OK, [TCall.reset, TCall.write (buildFrame rom DS18B20_CMD_CONVERT_TEMP)])

/-- `get_temperature(handle, rom_number, temperature)` (lines 124-160):
null-handle and null-output guards, bus reset, READ_SCRATCHPAD frame
write, 9-byte scratchpad read, CRC-8 check, resolution-masked decode.
`slot` is the value behind the caller's `float *temperature` at entry;
the returned triple is (esp_err_t, slot value at exit, transport trace).
`none` models the undefined behavior of the out-of-bounds `lsb_mask`
read (configuration byte with bit 7 set). -/
def get_temperature (handle tempPtr : Bool) (rom : Option Addr) (t : Transport) (slot : ℚ) :
    Option (Nat × ℚ × List TCall) :=
  if handle = false then some (ESP_ERR_INVALID_ARG, slot, [])
  else if tempPtr = false then some (ESP_ERR_INVALID_ARG, slot, [])
  else if t.resetResult ≠ ESP_OK then some (t.resetResult, slot, [TCall.reset])
  else if t.writeResult (buildFrame rom DS18B20_CMD_READ_SCRATCHPAD) ≠ ESP_OK then
    some (t.writeResult (buildFrame rom DS18B20_CMD_READ_SCRATCHPAD), slot,
      [TCall.reset, TCall.write (buildFrame rom DS18B20_CMD_READ_SCRATCHPAD)])
  else if (t.readResult 9).1 ≠ ESP_OK then
    some ((t.readResult 9).1, slot,
      [TCall.reset, TCall.write (buildFrame rom DS18B20_CMD_READ_SCRATCHPAD), TCall.read 9])
  else if onewire_crc8 0 (((t.readResult 9).2.map (· % 256)).take 8) ≠
      ((t.readResult 9).2.map (· % 256)).getD 8 0 then
    some (ESP_ERR_INVALID_CRC, slot,
      [TCall.reset, TCall.write (buildFrame rom DS18B20_CMD_READ_SCRATCHPAD), TCall.read 9])
  else
    match decode_temperature ((t.readResult 9).2.map (· % 256)) with
    | none => none
    | some v =>
      some (ESP_OK, v,
        [TCall.reset, TCall.write (buildFrame rom DS18B20_CMD_READ_SCRATCHPAD), TCall.read 9])

/-- `resolution_t` (ds18b20.h lines 32-37). -/
inductive resolution_t where
  | RESOLUTION_12B
  | RESOLUTION_11B
  | RESOLUTION_10B
  | RESOLUTION_9B
deriving DecidableEq

/-- The raw configuration-byte bit pattern of each `resolution_t` value. -/
def resolution_t.toByte : resolution_t → Nat
  | .RESOLUTION_12B => 0x7F
  | .RESOLUTION_11B => 0x5F
  | .RESOLUTION_10B => 0x3F
  | .RESOLUTION_9B => 0x1F

/-- `set_resolution(handle, rom_number, resolution)` (lines 167-197):
null-handle guard, bus reset, WRITE_SCRATCHPAD frame write, then the
3-byte payload write `tx_buffer[0] = 0; tx_buffer[1] = 0;
tx_buffer[2] = resolution` (lines 190-193). -/
def set_resolution (handle : Bool) (rom : Option Addr) (res : resolution_t) (t : Transport) :
    Nat × List TCall :=
  if handle = false then (ESP_ERR_INVALID_ARG, [])
  else if t.resetResult ≠ ESP_OK then (t.resetResult, [TCall.reset])
  else if t.writeResult (buildFrame rom DS18B20_CMD_WRITE_SCRATCHPAD) ≠ ESP_OK then
    (t.writeResult (buildFrame rom DS18B20_CMD_WRITE_SCRATCHPAD),
      [TCall.reset, TCall.write (buildFrame rom DS18B20_CMD_WRITE_SCRATCHPAD)])
  else if t.writeResult [0x00, 0x00, res.toByte] ≠ ESP_OK then
    (t.writeResult [0x00, 0x00, res.toByte],
      [TCall.reset, TCall.write (buildFrame rom DS18B20_CMD_WRITE_SCRATCHPAD),
        TCall.write [0x00, 0x00, res.toByte]])
  else (ESP_OK,
    [TCall.reset, TCall.write (buildFrame rom DS18B20_CMD_WRITE_SCRATCHPAD),
      TCall.write [0x00, 0x00, res.toByte]])

/-- The body of the `do { } while (device_num < max_instances)` loop of
`search` (lines 68-79), with an explicit fuel argument for termination
(`search` supplies `maxInstances + 1` fuel, which is never exhausted:
each ok iteration increments `deviceNum`, and the loop continues only
while `deviceNum + 1 < maxInstances`).
The iterator `it` gives the result of the n-th
`onewire_device_iter_get_next` call: `Except.ok a` a device address,
`Except.error e` the `esp_err_t` of a failed call (`ESP_ERR_NOT_FOUND` is
the exhaustion signal; the code breaks out of the loop on every non-ok
result, only the log line distinguishes the two).
Returns the final `device_num` and the list of (index, address) writes
into `rom_id_buffer`. -/
def searchLoop (it : Nat → Except Nat Nat) (maxInstances : Nat) :
    Nat → Nat → Nat × List (Nat × Nat)
  | deviceNum, 0 => (deviceNum, [])
  | deviceNum, fuel + 1 =>
    match it deviceNum with
    | Except.error _ => (deviceNum, [])
    | Except.ok a =>
      if deviceNum + 1 < maxInstances then
        let r := searchLoop it maxInstances (deviceNum + 1) fuel
        (r.1, (deviceNum, a) :: r.2)
      else (deviceNum + 1, [(deviceNum, a)])

/-- `search(handle, rom_id_buffer, max_instances)` (lines 57-86). The C
code performs no null check on `handle` (the `_handle` parameter is
unused): it passes the handle straight to `onewire_new_device_iter` under
`ESP_ERROR_CHECK`, which aborts the program if iterator creation fails —
modelled as result `none` with the `newIter` call already in the trace.
On success the do-while loop runs and `onewire_del_device_iter` is
issued; the result is `some (device_num, buffer writes)`. -/
def search (_handle : Bool) (t : Transport) (it : Nat → Except Nat Nat) (maxInstances : Nat) :
    Option (Nat × List (Nat × Nat)) × List TCall :=
  if t.newIterResult ≠ ESP_OK then (none, [TCall.newIter])
  else (some (searchLoop it maxInstances 0 (maxInstances + 1)), [TCall.newIter, TCall.delIter])

/-- A bus exposing `M` devices with addresses `a 0 .. a (M-1)`: the n-th
iterator call returns the n-th address while n < M, then the exhaustion
signal `ESP_ERR_NOT_FOUND`. -/
def busIter (M : Nat) (a : Nat → Nat) : Nat → Except Nat Nat :=
  fun i => if i < M then Except.ok (a i) else Except.error ESP_ERR_NOT_FOUND

/-- The byte sequences written on the bus during a trace, in order. -/
def writesOf (tr : List TCall) : List (List Nat) :=
  tr.filterMap fun c =>
    match c with
    | TCall.write b => some b
    | _ => none

/-- An always-succeeding transport that answers every 9-byte scratchpad
read with `sp`. -/
def mkTransport (sp : List Nat) : Transport :=
  { resetResult := ESP_OK
    writeResult := fun _ => ESP_OK
    readResult := fun _ => (ESP_OK, sp)
    newIterResult := ESP_OK }

/-- A CRC-valid scratchpad encoding raw temperature 0xFFF0 (that is, -16 =
-1.0 °C in the DS18B20's 16-bit two's-complement 1/16-degree encoding) at
12-bit resolution: LSB 0xF0, MSB 0xFF, configuration 0x7F, CRC byte
computed so the CRC check passes. -/
def spNeg1 : List Nat :=
  [0xF0, 0xFF, 0x00, 0x00, 0x7F, 0x00, 0x00, 0x00,
    onewire_crc8 0 [0xF0, 0xFF, 0x00, 0x00, 0x7F, 0x00, 0x00, 0x00]]

/-- Claim C1: the claim says `get_temperature` combines the sign-extended
MSB and masked LSB into a 16-bit two's-complement signed integer, so raw
0xFFF0 yields -1.0 and never a large positive number. The code (line 157)
divides `(static_cast<uint16_t>(msb) << 8) | lsb_masked` by 16.0f with no
cast to a signed type: on the CRC-valid scratchpad `spNeg1` carrying raw
0xFFF0 it succeeds and writes +4095.0, which is not -1.0 and is exactly
the large positive number the claim rules out. -/
theorem get_temperature_decodes_unsigned :
    get_temperature true true none (mkTransport spNeg1) 0 =
      some (ESP_OK, 4095,
        [TCall.reset, TCall.write [ONEWIRE_CMD_SKIP_ROM, DS18B20_CMD_READ_SCRATCHPAD],
          TCall.read 9]) ∧
    (4095 : ℚ) ≠ -1 ∧ 0 < (4095 : ℚ) := by
  have h : get_temperature true true none (mkTransport spNeg1) 0 =
      some (ESP_OK, (((65520 : Nat)) : ℚ) / 16,
        [TCall.reset, TCall.write [ONEWIRE_CMD_SKIP_ROM, DS18B20_CMD_READ_SCRATCHPAD],
          TCall.read 9]) := rfl
  refine ⟨?_, by norm_num, by norm_num⟩
  rw [h]
  norm_num

/-- A CRC-valid scratchpad whose configuration byte 0xE0 has bit 7 set:
`configuration >> 5 = 7`, past the end of the 4-entry `lsb_mask` table. -/
def spBadCfg : List Nat :=
  [0xFF, 0x00, 0x00, 0x00, 0xE0, 0x00, 0x00, 0x00,
    onewire_crc8 0 [0xFF, 0x00, 0x00, 0x00, 0xE0, 0x00, 0x00, 0x00]]

/-- Claim C2: the claim says the mask-table index is the 2-bit selector
from bits [6:5] of the configuration byte, in bounds for every possible
configuration byte. The code (line 156) indexes `lsb_mask[4]` with
`configuration >> 5`, a 3-bit value: on the CRC-valid scratchpad
`spBadCfg` with configuration byte 0xE0 the index is 7, the 4-entry table
access is out of bounds (undefined behavior, `none` in the model), and
the CRC guard does not rule such bytes out. -/
theorem mask_table_index_out_of_bounds :
    (0xE0 : Nat) >>> 5 = 7 ∧ lsb_mask.length = 4 ∧ lsb_mask[(7 : Nat)]? = none ∧
    decode_temperature spBadCfg = none ∧
    get_temperature true true none (mkTransport spBadCfg) 0 = none := by
  decide

/-- Claim C3, counterexample: with `max_instances = 0` over a bus exposing
one device, the claim says `search` returns min(1, 0) = 0 addresses and
never writes the caller's buffer; the do-while loop (lines 68-79) tests
`device_num < max_instances` only after its first iteration, so the code
reads one device, writes `rom_id_buffer[0]` and returns 1. -/
theorem search_max_zero_still_reads_one :
    (search true (mkTransport []) (busIter 1 fun _ => 7) 0).1 = some (1, [(0, 7)]) ∧
    (1 : Nat) ≠ min 1 0 := by
  exact ⟨rfl, by decide⟩

/-- A transport whose iterator creation fails with the invalid-argument
code, as `onewire_new_device_iter` does on a null bus handle. -/
def nullIterTransport : Transport :=
  { resetResult := ESP_OK
    writeResult := fun _ => ESP_OK
    readResult := fun _ => (ESP_OK, [])
    newIterResult := ESP_ERR_INVALID_ARG }

/-- Claim C4, counterexample: the claim says every exposed operation,
`search` included, returns Invalid-Argument on a null handle without any
transport call. `search` (line 63) has no null check: called with a null
handle it still issues the iterator-creation transport call, and when
that call fails the surrounding `ESP_ERROR_CHECK` aborts the program
(`none` in the model) instead of returning Invalid-Argument. -/
theorem search_null_handle_issues_transport_call :
    (search false nullIterTransport (busIter 1 fun _ => 7) 3).2 = [TCall.newIter] ∧
    (search false nullIterTransport (busIter 1 fun _ => 7) 3).1 = none := by
  exact ⟨rfl, rfl⟩

/-- Claim C4, amended: `trigger_temperature_conversion`, `get_temperature`
and `set_resolution` called with a null transport handle return
Invalid-Argument with an empty transport trace (lines 94, 126-127, 169);
`search` performs no null-handle check and always issues the
iterator-creation call first, whatever the handle. -/
theorem null_handle_invalid_arg (rom : Option Addr) (t : Transport) (res : resolution_t)
    (slot : ℚ) (tempPtr : Bool) (it : Nat → Except Nat Nat) (maxI : Nat) :
    trigger_temperature_conversion false rom t = (ESP_ERR_INVALID_ARG, []) ∧
    get_temperature false tempPtr rom t slot = some (ESP_ERR_INVALID_ARG, slot, []) ∧
    set_resolution false rom res t = (ESP_ERR_INVALID_ARG, []) ∧
    (search false t it maxI).2.head? = some TCall.newIter := by
  refine ⟨rfl, rfl, rfl, ?_⟩
  unfold search
  split <;> rfl

/-- Claim C5: whenever the CRC-8 (seed 0) of the first 8 scratchpad bytes
differs from the 9th byte, `get_temperature` fails with
`ESP_ERR_INVALID_CRC` and the output slot keeps its entry value
(line 152); more generally the output slot is written only on the fully
successful path: every failing outcome leaves it unchanged. -/
theorem get_temperature_crc_guard (handle tempPtr : Bool) (rom : Option Addr)
    (t : Transport) (slot : ℚ) :
    (∀ e v tr, get_temperature handle tempPtr rom t slot = some (e, v, tr) →
      e ≠ ESP_OK → v = slot) ∧
    (∀ raw, handle = true → tempPtr = true → t.resetResult = ESP_OK →
      t.writeResult (buildFrame rom DS18B20_CMD_READ_SCRATCHPAD) = ESP_OK →
      t.readResult 9 = (ESP_OK, raw) →
      onewire_crc8 0 ((raw.map (· % 256)).take 8) ≠ (raw.map (· % 256)).getD 8 0 →
      get_temperature handle tempPtr rom t slot =
        some (ESP_ERR_INVALID_CRC, slot,
          [TCall.reset, TCall.write (buildFrame rom DS18B20_CMD_READ_SCRATCHPAD),
            TCall.read 9])) := by
  constructor
  · intro e v tr h he
    unfold get_temperature at h
    split_ifs at h with h1 h2 h3 h4 h5 h6
    · simp only [Option.some.injEq, Prod.mk.injEq] at h
      exact h.2.1.symm
    · simp only [Option.some.injEq, Prod.mk.injEq] at h
      exact h.2.1.symm
    · simp only [Option.some.injEq, Prod.mk.injEq] at h
      exact h.2.1.symm
    · simp only [Option.some.injEq, Prod.mk.injEq] at h
      exact h.2.1.symm
    · simp only [Option.some.injEq, Prod.mk.injEq] at h
      exact h.2.1.symm
    · simp only [Option.some.injEq, Prod.mk.injEq] at h
      exact h.2.1.symm
    · split at h
      · simp at h
      · simp only [Option.some.injEq, Prod.mk.injEq] at h
        exact absurd h.1.symm he
  · intro raw hh htp hr hw hread hcrc
    subst hh
    subst htp
    unfold get_temperature
    rw [if_neg (by decide), if_neg (by decide),
      if_neg (show ¬(t.resetResult ≠ ESP_OK) by simp [hr]),
      if_neg (show ¬(t.writeResult (buildFrame rom DS18B20_CMD_READ_SCRATCHPAD) ≠ ESP_OK) by
        simp [hw]),
      if_neg (show ¬((t.readResult 9).1 ≠ ESP_OK) by simp [hread]),
      if_pos (show onewire_crc8 0 (((t.readResult 9).2.map (· % 256)).take 8) ≠
          ((t.readResult 9).2.map (· % 256)).getD 8 0 by rw [hread]; exact hcrc)]

/-- Witness for claim C5: a concrete all-zero scratchpad whose 9th byte 1
does not match `onewire_crc8 0 [0,...,0] = 0`; `get_temperature` fails
with the CRC error and the slot keeps its entry value 5. -/
theorem get_temperature_crc_guard_witness :
    get_temperature true true none (mkTransport [0, 0, 0, 0, 0, 0, 0, 0, 1]) 5 =
      some (ESP_ERR_INVALID_CRC, 5,
        [TCall.reset, TCall.write (buildFrame none DS18B20_CMD_READ_SCRATCHPAD),
          TCall.read 9]) :=
  (get_temperature_crc_guard true true none (mkTransport [0, 0, 0, 0, 0, 0, 0, 0, 1]) 5).2
    [0, 0, 0, 0, 0, 0, 0, 0, 1] rfl rfl rfl rfl rfl (by decide)

/-- The transport trace of `trigger_temperature_conversion` is always a
prefix of reset-then-frame-write. -/
lemma trigger_trace_cases (handle : Bool) (rom : Option Addr) (t : Transport) :
    (trigger_temperature_conversion handle rom t).2 = [] ∨
    (trigger_temperature_conversion handle rom t).2 = [TCall.reset] ∨
    (trigger_temperature_conversion handle rom t).2 =
      [TCall.reset, TCall.write (buildFrame rom DS18B20_CMD_CONVERT_TEMP)] := by
  unfold trigger_temperature_conversion
  split_ifs <;> simp

/-- The transport trace of any `some` outcome of `get_temperature` is a
prefix of reset, frame write, 9-byte read. -/
lemma get_temperature_trace_cases (handle tempPtr : Bool) (rom : Option Addr)
    (t : Transport) (slot : ℚ) (e : Nat) (v : ℚ) (tr : List TCall)
    (h : get_temperature handle tempPtr rom t slot = some (e, v, tr)) :
    tr = [] ∨ tr = [TCall.reset] ∨
    tr = [TCall.reset, TCall.write (buildFrame rom DS18B20_CMD_READ_SCRATCHPAD)] ∨
    tr = [TCall.reset, TCall.write (buildFrame rom DS18B20_CMD_READ_SCRATCHPAD),
      TCall.read 9] := by
  unfold get_temperature at h
  split_ifs at h
  · simp only [Option.some.injEq, Prod.mk.injEq] at h
    obtain ⟨-, -, rfl⟩ := h
    simp
  · simp only [Option.some.injEq, Prod.mk.injEq] at h
    obtain ⟨-, -, rfl⟩ := h
    simp
  · simp only [Option.some.injEq, Prod.mk.injEq] at h
    obtain ⟨-, -, rfl⟩ := h
    simp
  · simp only [Option.some.injEq, Prod.mk.injEq] at h
    obtain ⟨-, -, rfl⟩ := h
    simp
  · simp only [Option.some.injEq, Prod.mk.injEq] at h
    obtain ⟨-, -, rfl⟩ := h
    simp
  · simp only [Option.some.injEq, Prod.mk.injEq] at h
    obtain ⟨-, -, rfl⟩ := h
    simp
  · split at h
    · simp at h
    · simp only [Option.some.injEq, Prod.mk.injEq] at h
      obtain ⟨-, -, rfl⟩ := h
      simp

/-- The transport trace of `set_resolution` is always a prefix of reset,
frame write, payload write. -/
lemma set_resolution_trace_cases (handle : Bool) (rom : Option Addr) (res : resolution_t)
    (t : Transport) :
    (set_resolution handle rom res t).2 = [] ∨
    (set_resolution handle rom res t).2 = [TCall.reset] ∨
    (set_resolution handle rom res t).2 =
      [TCall.reset, TCall.write (buildFrame rom DS18B20_CMD_WRITE_SCRATCHPAD)] ∨
    (set_resolution handle rom res t).2 =
      [TCall.reset, TCall.write (buildFrame rom DS18B20_CMD_WRITE_SCRATCHPAD),
        TCall.write [0x00, 0x00, res.toByte]] := by
  unfold set_resolution
  split_ifs <;> simp

/-- Claim C6: the command frame is `[MATCH_ROM, addr[0..7], cmd]`, exactly
10 bytes, when a device address is supplied, and `[SKIP_ROM, cmd]`,
exactly 2 bytes, when it is omitted — never any other length; and each
operation's bus writes are exactly these frames: the only write of
`trigger_temperature_conversion` (CONVERT_TEMP) and of `get_temperature`
(READ_SCRATCHPAD) is its frame, and `set_resolution` (WRITE_SCRATCHPAD)
writes only its frame and the separate 3-byte configuration payload. -/
theorem command_frames_exact (rom : Option Addr) (cmd : Nat) (t : Transport)
    (res : resolution_t) (slot : ℚ) :
    (∀ r, rom = some r →
      buildFrame rom cmd = ONEWIRE_CMD_MATCH_ROM :: (List.ofFn r ++ [cmd]) ∧
      (buildFrame rom cmd).length = 10) ∧
    (rom = none →
      buildFrame rom cmd = [ONEWIRE_CMD_SKIP_ROM, cmd] ∧ (buildFrame rom cmd).length = 2) ∧
    ((buildFrame rom cmd).length = 10 ∨ (buildFrame rom cmd).length = 2) ∧
    (∀ w ∈ writesOf (trigger_temperature_conversion true rom t).2,
      w = buildFrame rom DS18B20_CMD_CONVERT_TEMP) ∧
    (∀ e v tr, get_temperature true true rom t slot = some (e, v, tr) →
      ∀ w ∈ writesOf tr, w = buildFrame rom DS18B20_CMD_READ_SCRATCHPAD) ∧
    (∀ w ∈ writesOf (set_resolution true rom res t).2,
      w = buildFrame rom DS18B20_CMD_WRITE_SCRATCHPAD ∨ w = [0x00, 0x00, res.toByte]) := by
  refine ⟨?_, ?_, ?_, ?_, ?_, ?_⟩
  · rintro r rfl
    exact ⟨rfl, by simp [buildFrame]⟩
  · rintro rfl
    exact ⟨rfl, rfl⟩
  · cases rom with
    | none => exact Or.inr rfl
    | some r => exact Or.inl (by simp [buildFrame])
  · intro w hw
    rcases trigger_trace_cases true rom t with h | h | h <;>
      (rw [h] at hw
       simp [writesOf, List.filterMap_cons] at hw
       try tauto)
  · intro e v tr h w hw
    rcases get_temperature_trace_cases true true rom t slot e v tr h with h' | h' | h' | h' <;>
      (rw [h'] at hw
       simp [writesOf, List.filterMap_cons] at hw
       try tauto)
  · intro w hw
    rcases set_resolution_trace_cases true rom res t with h | h | h | h <;>
      (rw [h] at hw
       simp [writesOf, List.filterMap_cons] at hw
       try tauto)

/-- A concrete 8-byte device address, every byte 0xAB. -/
def addrAB : Addr := fun _ => 0xAB

/-- Witness for claim C6: for the concrete address `addrAB`, the
CONVERT_TEMP frame is the 10 literal bytes
`[0x55, 0xAB x 8, 0x44]`, and the single bus write of
`trigger_temperature_conversion` on a succeeding transport is exactly
that frame. -/
theorem command_frames_exact_witness :
    buildFrame (some addrAB) DS18B20_CMD_CONVERT_TEMP =
      [0x55, 0xAB, 0xAB, 0xAB, 0xAB, 0xAB, 0xAB, 0xAB, 0xAB, 0x44] ∧
    (writesOf (trigger_temperature_conversion true (some addrAB) (mkTransport [])).2).getD 0 [] =
      [0x55, 0xAB, 0xAB, 0xAB, 0xAB, 0xAB, 0xAB, 0xAB, 0xAB, 0x44] := by
  have h := command_frames_exact (some addrAB) DS18B20_CMD_CONVERT_TEMP (mkTransport [])
    resolution_t.RESOLUTION_9B 0
  have h1 := (h.1 addrAB rfl).1
  have h2 := h.2.2.2.1
    ((writesOf (trigger_temperature_conversion true (some addrAB) (mkTransport [])).2).getD 0 [])
    (by decide)
  refine ⟨by rw [h1]; decide, by rw [h2, h1]; decide⟩

/-- Claim C8: every bus write of `set_resolution` is either its
WRITE_SCRATCHPAD command frame or the payload `[0x00, 0x00, configByte]`
(lines 190-193); on the successful path the writes are exactly the frame
followed by that 3-byte payload, whose alarm/user bytes are always zero;
and the configuration bytes are the four raw `resolution_t` patterns. -/
theorem set_resolution_payload (rom : Option Addr) (res : resolution_t) (t : Transport) :
    (∀ w ∈ writesOf (set_resolution true rom res t).2,
      w = buildFrame rom DS18B20_CMD_WRITE_SCRATCHPAD ∨ w = [0x00, 0x00, res.toByte]) ∧
    ((set_resolution true rom res t).1 = ESP_OK →
      writesOf (set_resolution true rom res t).2 =
        [buildFrame rom DS18B20_CMD_WRITE_SCRATCHPAD, [0x00, 0x00, res.toByte]]) ∧
    [0x00, 0x00, res.toByte].length = 3 ∧
    resolution_t.RESOLUTION_12B.toByte = 0x7F ∧ resolution_t.RESOLUTION_11B.toByte = 0x5F ∧
    resolution_t.RESOLUTION_10B.toByte = 0x3F ∧ resolution_t.RESOLUTION_9B.toByte = 0x1F := by
  refine ⟨?_, ?_, rfl, rfl, rfl, rfl, rfl⟩
  · intro w hw
    rcases set_resolution_trace_cases true rom res t with h | h | h | h <;>
      (rw [h] at hw
       simp [writesOf, List.filterMap_cons] at hw
       try tauto)
  · intro hok
    unfold set_resolution at hok ⊢
    split_ifs at hok ⊢ <;>
      simp_all [writesOf, List.filterMap_cons, ESP_ERR_INVALID_ARG, ESP_OK]

/-- Witness for claim C8: concrete successful run at 12-bit resolution
with no address: the two writes are the SKIP ROM frame `[0xCC, 0x4E]` and
the payload `[0x00, 0x00, 0x7F]`. -/
theorem set_resolution_payload_witness :
    writesOf (set_resolution true none resolution_t.RESOLUTION_12B (mkTransport [])).2 =
      [[0xCC, 0x4E], [0x00, 0x00, 0x7F]] := by
  have h := (set_resolution_payload none resolution_t.RESOLUTION_12B (mkTransport [])).2.1 rfl
  rw [h]
  decide

/-- If the iterator yields `a 0 .. a (k-1)` on its first `k` calls and its
k-th call is not ok, and the do-while loop is still running at position
`d ≤ k` with the cap strictly beyond `k`, the loop stops at the k-th call:
final count `k`, buffer writes exactly `(i, a i)` for `d ≤ i < k`. -/
lemma searchLoop_stops (it : Nat → Except Nat Nat) (a : Nat → Nat) (k maxI : Nat)
    (hpre : ∀ i, i < k → it i = Except.ok (a i))
    (hstop : ∀ r, ¬ it k = Except.ok r) :
    ∀ fuel d, d ≤ k → k < maxI → k + 1 ≤ d + fuel →
      searchLoop it maxI d fuel = (k, (List.range' d (k - d)).map fun i => (i, a i)) := by
  intro fuel
  induction fuel with
  | zero =>
    intro d hd hk hf
    exact absurd hf (by omega)
  | succ n ih =>
    intro d hd hk hf
    rcases Nat.lt_or_eq_of_le hd with hdk | hdk
    · have hok := hpre d hdk
      have hlt : d + 1 < maxI := by omega
      have hrec := ih (d + 1) (by omega) hk (by omega)
      have hkd : k - d = (k - (d + 1)) + 1 := by omega
      simp only [searchLoop, hok, if_pos hlt, hrec, hkd, List.range'_succ, List.map_cons]
    · subst hdk
      rcases hcase : it d with e | r
      · simp only [searchLoop, hcase, Nat.sub_self, List.range', List.map_nil]
      · exact absurd hcase (hstop r)

/-- If the iterator yields `a 0 .. a (maxI - 1)` on its first `maxI` calls
and the loop is running at position `d < maxI`, it stops on reaching the
requested maximum: final count `maxI`, writes `(i, a i)` for
`d ≤ i < maxI`. -/
lemma searchLoop_maxed (it : Nat → Except Nat Nat) (a : Nat → Nat) (maxI : Nat)
    (hpre : ∀ i, i < maxI → it i = Except.ok (a i)) :
    ∀ fuel d, d < maxI → maxI ≤ d + fuel →
      searchLoop it maxI d fuel = (maxI, (List.range' d (maxI - d)).map fun i => (i, a i)) := by
  intro fuel
  induction fuel with
  | zero =>
    intro d h1 h2
    exact absurd h2 (by omega)
  | succ n ih =>
    intro d h1 h2
    have hok := hpre d h1
    by_cases hlt : d + 1 < maxI
    · have hrec := ih (d + 1) hlt (by omega)
      have hmd : maxI - d = (maxI - (d + 1)) + 1 := by omega
      simp only [searchLoop, hok, if_pos hlt, hrec, hmd, List.range'_succ, List.map_cons]
    · have heq : maxI = d + 1 := by omega
      subst heq
      simp only [searchLoop, hok, if_neg hlt, Nat.add_sub_cancel_left, List.range',
        List.map_cons, List.map_nil]

/-- Claim C3, amended: for every `max_instances` N ≥ 1 and every bus
exposing M devices, `search` returns exactly min(M, N) addresses, writes
exactly the buffer slots 0 .. min(M, N) - 1, and stops as soon as the
iterator signals exhaustion or the maximum is reached (it never consults
the iterator past call min(M, N): the result is the same for every
iterator agreeing with the bus on calls 0 .. min(M, N)). For N = 0 the
do-while loop still runs once — see the counterexample theorem. -/
theorem search_returns_min (t : Transport) (it : Nat → Except Nat Nat)
    (M N : Nat) (a : Nat → Nat)
    (ht : t.newIterResult = ESP_OK) (hN : 1 ≤ N)
    (hagree : ∀ i, i ≤ min M N → it i = busIter M a i) :
    (search true t it N).1 =
      some (min M N, (List.range (min M N)).map fun i => (i, a i)) := by
  unfold search
  rw [if_neg (show ¬ t.newIterResult ≠ ESP_OK by simp [ht])]
  rcases Nat.lt_or_ge M N with hMN | hMN
  · have hmin : min M N = M := by omega
    have hpre : ∀ i, i < M → it i = Except.ok (a i) := by
      intro i hi
      rw [hagree i (by omega)]
      simp only [busIter, if_pos hi]
    have hstop : ∀ r, ¬ it M = Except.ok r := by
      intro r hc
      rw [hagree M (by omega)] at hc
      simp [busIter] at hc
    have h := searchLoop_stops it a M N hpre hstop (N + 1) 0 (by omega) hMN (by omega)
    rw [h, hmin, List.range_eq_range']
    simp
  · have hmin : min M N = N := by omega
    have hpre : ∀ i, i < N → it i = Except.ok (a i) := by
      intro i hi
      rw [hagree i (by omega)]
      simp only [busIter, if_pos (show i < M by omega)]
    have h := searchLoop_maxed it a N hpre (N + 1) 0 (by omega) (by omega)
    rw [h, hmin, List.range_eq_range']
    simp

/-- Witness for claim C3: a bus with 3 devices 100, 101, 102 enumerated
with `max_instances = 2` yields exactly 2 addresses, written at buffer
slots 0 and 1. -/
theorem search_returns_min_witness :
    (search true (mkTransport []) (busIter 3 (fun i => 100 + i)) 2).1 =
      some (2, [(0, 100), (1, 101)]) := by
  have h := search_returns_min (mkTransport []) (busIter 3 (fun i => 100 + i)) 3 2
    (fun i => 100 + i) rfl (by decide) (fun i _ => rfl)
  rw [h]
  decide

/-- Claim C7: if the iterator's first k calls succeed and its next call
fails with any code `e`, the loop breaks at that call and `search`
returns the k addresses collected so far. With `e = ESP_ERR_NOT_FOUND`
this is normal exhaustion, with any other `e` the abort-early
partial-success path (lines 70-75); the returned count is `some`, never
an error value, in both cases — the two branches differ only in the log
line. -/
theorem search_stops_on_iterator_error (t : Transport) (it : Nat → Except Nat Nat)
    (k maxI : Nat) (a : Nat → Nat) (e : Nat)
    (ht : t.newIterResult = ESP_OK)
    (hpre : ∀ i, i < k → it i = Except.ok (a i))
    (hk : k < maxI)
    (he : it k = Except.error e) :
    (search true t it maxI).1 = some (k, (List.range k).map fun i => (i, a i)) := by
  have hstop : ∀ r, ¬ it k = Except.ok r := by
    intro r hc
    rw [he] at hc
    exact Except.noConfusion hc
  unfold search
  rw [if_neg (show ¬ t.newIterResult ≠ ESP_OK by simp [ht])]
  have h := searchLoop_stops it a k maxI hpre hstop (maxI + 1) 0 (by omega) hk (by omega)
  rw [h, List.range_eq_range']
  simp

/-- Witness for claim C7: the iterator yields one device (address 5) and
then fails with `ESP_ERR_TIMEOUT` (0x107), a non-exhaustion error;
`search` with `max_instances = 4` returns the single address collected
before the error. -/
theorem search_stops_on_iterator_error_witness :
    (search true (mkTransport [])
      (fun i => if i < 1 then Except.ok (5 + i) else Except.error 0x107) 4).1 =
      some (1, [(0, 5)]) := by
  have h := search_stops_on_iterator_error (mkTransport [])
    (fun i => if i < 1 then Except.ok (5 + i) else Except.error 0x107) 1 4
    (fun i => 5 + i) 0x107 rfl (fun i hi => if_pos hi) (by decide) rfl
  rw [h]
  decide

/-- Every value `decode_temperature` can produce is `k / 16` for a 16-bit
unsigned magnitude `k`. -/
lemma decode_temperature_bound (sp : List Nat) (v : ℚ)
    (h : decode_temperature sp = some v) :
    ∃ k : Nat, k ≤ 65535 ∧ v = (k : ℚ) / 16 := by
  unfold decode_temperature at h
  split at h
  · exact absurd h (by simp)
  · rename_i mask hmask
    refine ⟨((sp.getD 1 0 % 256) <<< 8) ||| ((sp.getD 0 0 % 256) &&& (255 ^^^ mask)), ?_, ?_⟩
    · have h1 : sp.getD 1 0 % 256 < 256 := Nat.mod_lt _ (by omega)
      have h2 : (sp.getD 1 0 % 256) <<< 8 < 2 ^ 16 := by
        rw [Nat.shiftLeft_eq]
        have : (sp.getD 1 0 % 256) * 2 ^ 8 < 256 * 2 ^ 8 :=
          Nat.mul_lt_mul_of_lt_of_le h1 (Nat.le_refl _) (by norm_num)
        omega
      have h3 : (sp.getD 0 0 % 256) &&& (255 ^^^ mask) < 2 ^ 16 := by
        have := Nat.and_le_left (n := sp.getD 0 0 % 256) (m := 255 ^^^ mask)
        have := Nat.mod_lt (sp.getD 0 0) (show 0 < 256 by omega)
        omega
      have := Nat.or_lt_two_pow h2 h3
      omega
    · exact (Option.some.inj h).symm

/-- Claim C10: whenever `get_temperature` succeeds, the value written to
the output slot is exactly the scratchpad decode
`((msb << 8) | masked_lsb) / 16` (the model's rational arithmetic is
exact: the numerator is below 2^16 < 2^24, so the C `float` division by
16.0f is exact as well), hence a nonnegative integer multiple of 1/16
bounded by 65535/16 = 4095.9375. -/
theorem get_temperature_success_value (handle tempPtr : Bool) (rom : Option Addr)
    (t : Transport) (slot v : ℚ) (tr : List TCall)
    (h : get_temperature handle tempPtr rom t slot = some (ESP_OK, v, tr)) :
    decode_temperature ((t.readResult 9).2.map (· % 256)) = some v ∧
    (∃ k : Nat, k ≤ 65535 ∧ v = (k : ℚ) / 16) ∧
    0 ≤ v ∧ v ≤ 65535 / 16 := by
  have hdec : decode_temperature ((t.readResult 9).2.map (· % 256)) = some v := by
    unfold get_temperature at h
    split_ifs at h with h1 h2 h3 h4 h5 h6
    · simp only [Option.some.injEq, Prod.mk.injEq] at h
      exact absurd h.1 (by decide)
    · simp only [Option.some.injEq, Prod.mk.injEq] at h
      exact absurd h.1 (by decide)
    · simp only [Option.some.injEq, Prod.mk.injEq] at h
      exact absurd h.1 h3
    · simp only [Option.some.injEq, Prod.mk.injEq] at h
      exact absurd h.1 h4
    · simp only [Option.some.injEq, Prod.mk.injEq] at h
      exact absurd h.1 h5
    · simp only [Option.some.injEq, Prod.mk.injEq] at h
      exact absurd h.1 (by decide)
    · split at h
      · exact absurd h (by simp)
      · rename_i v' hv'
        simp only [Option.some.injEq, Prod.mk.injEq] at h
        rw [hv', h.2.1]
  obtain ⟨k, hk, hv⟩ := decode_temperature_bound _ v hdec
  refine ⟨hdec, ⟨k, hk, hv⟩, ?_, ?_⟩
  · rw [hv]
    positivity
  · rw [hv]
    rw [div_le_div_iff_of_pos_right (show (0 : ℚ) < 16 by norm_num)]
    exact_mod_cast hk

/-- Witness for claim C10: the all-zero CRC-valid scratchpad decodes to
0/16 = 0 degrees, which satisfies the range and granularity bounds. -/
theorem get_temperature_success_value_witness :
    decode_temperature (((mkTransport (List.replicate 9 0)).readResult 9).2.map (· % 256)) =
      some (((0 : Nat) : ℚ) / 16) ∧
    (∃ k : Nat, k ≤ 65535 ∧ ((0 : Nat) : ℚ) / 16 = (k : ℚ) / 16) ∧
    0 ≤ ((0 : Nat) : ℚ) / 16 ∧ ((0 : Nat) : ℚ) / 16 ≤ 65535 / 16 :=
  get_temperature_success_value true true none (mkTransport (List.replicate 9 0)) 0
    (((0 : Nat) : ℚ) / 16)
    [TCall.reset, TCall.write (buildFrame none DS18B20_CMD_READ_SCRATCHPAD), TCall.read 9]
    rfl

end Ds18b20
